import Mathlib

/-!
# Verification of the MT5Connector connection-management wrapper

Shallow embedding of `src/utils/mt5_connector.py`.  The wrapper manages the
lifecycle of a connection to a MetaTrader 5 terminal: it loads a terminal
path and account credentials from an INI configuration file, initializes the
terminal, logs into an account, and shuts the connection down.

Modelling choices:
* the external MetaTrader5 client library (`mt5.initialize`, `mt5.login`,
  `mt5.shutdown`, `mt5.last_error`) is a pure oracle `MT5Client`;
* the filesystem is an input to construction: whether the config file exists
  and, if so, its parsed contents;
* observable side effects — calls into the external client and printed
  diagnostics — are recorded in an event trace returned by each operation;
* Python exceptions that the code catches are modelled by the corresponding
  branch of the embedding; the `with`-statement follows Python semantics:
  if `__enter__` raises, `__exit__` is never invoked.
-/

namespace MT5

/-- One observable effect of the wrapper: a call into the external
MetaTrader5 client library, or a printed diagnostic line. -/
inductive Event where
  | initCall (path : Option String)
  | loginCall (login : Int) (password : String) (server : String)
  | shutdownCall
  | printMsg (msg : String)
deriving DecidableEq, Repr

/-- A parsed INI configuration, as `configparser` exposes it: a mapping from
section name to a mapping from key to string value. -/
abbrev Config := List (String × List (String × String))

/-- `config[section]` lookup: the first section with the given name. -/
def getSection (cfg : Config) (s : String) : Option (List (String × String)) :=
  (cfg.find? (fun p => p.1 == s)).map Prod.snd

/-- `config.has_section(s)`. -/
def hasSection (cfg : Config) (s : String) : Bool :=
  (getSection cfg s).isSome

/-- `section[key]` lookup inside one section. -/
def getKey (sec : List (String × String)) (k : String) : Option String :=
  (sec.find? (fun p => p.1 == k)).map Prod.snd

/-- Value of a nonempty decimal digit string. -/
def digitsVal (l : List Char) : Nat :=
  l.foldl (fun a c => a * 10 + (c.toNat - 48)) 0

/-- Strip leading and trailing whitespace from a character list. -/
def trimChars (l : List Char) : List Char :=
  ((l.dropWhile Char.isWhitespace).reverse.dropWhile Char.isWhitespace).reverse

/-- Python `int(s)` on a string: surrounding whitespace is stripped, an
optional sign is allowed, and the rest must be a nonempty digit string;
otherwise a `ValueError` is raised, modelled as `none`. -/
def parseIntPy (s : String) : Option Int :=
  match trimChars s.data with
  | [] => none
  | '-' :: rest =>
      if !rest.isEmpty && rest.all Char.isDigit then
        some (-(digitsVal rest : Int))
      else none
  | '+' :: rest =>
      if !rest.isEmpty && rest.all Char.isDigit then
        some ((digitsVal rest : Int))
      else none
  | l =>
      if l.all Char.isDigit then some ((digitsVal l : Int)) else none

/-- Pure oracle for the external MetaTrader5 client library: the outcome of
`mt5.initialize` for each path, the outcome of `mt5.login` for each
credential triple, and the code `mt5.last_error()` reports after a failure. -/
structure MT5Client where
  initOk : Option String → Bool
  loginOk : Int → String → String → Bool
  lastError : Int

/-- The wrapper state set up by `MT5Connector.__init__`: the config file
path, the loaded configuration store, and the optional terminal path. -/
structure MT5Connector where
  config_path : String
  config : Config
  path : Option String
deriving DecidableEq, Repr

/-- Diagnostic printed when the config file does not exist. -/
def fileNotFoundMsg (config_path : String) : String :=
  "Error: Configuration file not found at: " ++ config_path

/-- Diagnostic printed when the terminal section is absent. -/
def sectionNotFoundMsg (terminal_section : String) : String :=
  "Error: Section \x27" ++ terminal_section ++ "\x27 not found in config file."

/-- Diagnostic printed when the terminal section was read successfully. -/
def configLoadedMsg (terminal_section : String) : String :=
  "Terminal configuration loaded from section \x27" ++ terminal_section ++ "\x27."

/-- `MT5Connector.__init__` together with `_load_terminal_config`.
`fileExists` and `fileConfig` model `os.path.exists` and `config.read`.
`self.path` starts as `None`; if the file is missing or the section absent,
a diagnostic is printed and the method returns with the path still unset
(no exception escapes).  Otherwise `config.get(section, "path",
fallback=None)` is read and an empty string is normalized to `None`.
The `try/except` around `config.get` cannot fire, since `get` with a
fallback returns the fallback instead of raising. -/
def mkConnector (config_path : String) (fileExists : Bool) (fileConfig : Config)
    (terminal_section : String) : MT5Connector × List Event :=
  if !fileExists then
    ({ config_path := config_path, config := [], path := none },
     [.printMsg (fileNotFoundMsg config_path)])
  else if !(hasSection fileConfig terminal_section) then
    ({ config_path := config_path, config := fileConfig, path := none },
     [.printMsg (sectionNotFoundMsg terminal_section)])
  else
    let p0 := match getSection fileConfig terminal_section with
              | some sec => getKey sec "path"
              | none => none
    let p := if p0 = some "" then none else p0
    ({ config_path := config_path, config := fileConfig, path := p },
     [.printMsg (configLoadedMsg terminal_section)])

/-- Python `self.path or 'auto-detected path'`: a `None` or empty path
displays as the auto-detect marker. -/
def pathDisplay (p : Option String) : String :=
  match p with
  | some s => if s = "" then "auto-detected path" else s
  | none => "auto-detected path"

/-- Failure diagnostic of `initialize_terminal`. -/
def initFailedMsg (mt5 : MT5Client) : String :=
  "Terminal initialize() failed, error code = " ++ toString mt5.lastError

/-- Success diagnostic of `initialize_terminal`. -/
def initOkMsg (p : Option String) : String :=
  "Terminal at \x27" ++ pathDisplay p ++ "\x27 initialized successfully."

/-- `MT5Connector.initialize_terminal`: calls `mt5.initialize(path=self.path)`
once; on failure prints the last error code and returns `False`, otherwise
prints a success message and returns `True`.  The method assigns no
attribute, so the wrapper state is returned unchanged. -/
def initialize_terminal (c : MT5Connector) (mt5 : MT5Client) :
    MT5Connector × Bool × List Event :=
  if !(mt5.initOk c.path) then
    (c, false, [.initCall c.path, .printMsg (initFailedMsg mt5)])
  else
    (c, true, [.initCall c.path, .printMsg (initOkMsg c.path)])

/-- Diagnostic printed when the account section is absent. -/
def accountSectionMsg (account_section : String) : String :=
  "Error: Account section \x27" ++ account_section ++ "\x27 not found in config file."

/-- Diagnostic of the `KeyError` handler: Python formats `KeyError(k)` as
the repr `'k'`. -/
def missingKeyMsg (k account_section : String) : String :=
  "Error: Missing key \x27" ++ k ++ "\x27 in account section \x27" ++
    account_section ++ "\x27."

/-- Diagnostic of the generic handler when `int(creds["login"])` raises
`ValueError` on a non-numeric login value. -/
def badLoginValueMsg (loginStr : String) : String :=
  "An unexpected error occurred during login: invalid literal for int() " ++
    "with base 10: \x27" ++ loginStr ++ "\x27"

/-- Failure diagnostic of the `mt5.login` call. -/
def loginFailedMsg (login : Int) (mt5 : MT5Client) : String :=
  "Failed to login to account #" ++ toString login ++ ", error code: " ++
    toString mt5.lastError

/-- Success diagnostic of `login_to_account`. -/
def loginOkMsg (login : Int) (account_section : String) : String :=
  "Successfully logged into account #" ++ toString login ++
    " from section \x27" ++ account_section ++ "\x27."

/-- `MT5Connector.login_to_account`: checks `has_section`; reads
`creds["login"]` (KeyError → caught), converts it with `int` (ValueError →
caught by the generic handler), reads `creds["password"]` and
`creds["server"]` (KeyError → caught), and only then calls
`mt5.login(login=..., password=..., server=...)`.  Every failure prints a
diagnostic and returns `False`; no attribute is assigned, so the wrapper
state is returned unchanged. -/
def login_to_account (c : MT5Connector) (mt5 : MT5Client) (account_section : String) :
    MT5Connector × Bool × List Event :=
  match getSection c.config account_section with
  | none => (c, false, [.printMsg (accountSectionMsg account_section)])
  | some creds =>
    match getKey creds "login" with
    | none => (c, false, [.printMsg (missingKeyMsg "login" account_section)])
    | some loginStr =>
      match parseIntPy loginStr with
      | none => (c, false, [.printMsg (badLoginValueMsg loginStr)])
      | some login =>
        match getKey creds "password" with
        | none => (c, false, [.printMsg (missingKeyMsg "password" account_section)])
        | some password =>
          match getKey creds "server" with
          | none => (c, false, [.printMsg (missingKeyMsg "server" account_section)])
          | some server =>
            if !(mt5.loginOk login password server) then
              (c, false, [.loginCall login password server,
                          .printMsg (loginFailedMsg login mt5)])
            else
              (c, true, [.loginCall login password server,
                         .printMsg (loginOkMsg login account_section)])

/-- `MT5Connector.shutdown_terminal`: unconditionally calls `mt5.shutdown()`
and prints a message; it inspects and assigns no attribute, so it behaves
the same in every wrapper state and returns the state unchanged. -/
def shutdown_terminal (c : MT5Connector) : MT5Connector × List Event :=
  (c, [.shutdownCall,
       .printMsg "Connection to MetaTrader 5 terminal has been shut down."])

/-- Outcome of executing a `with` block around the connector. -/
inductive ScopeOutcome where
  /-- `__enter__` raised `ConnectionError`; per Python semantics `__exit__`
  is never invoked and the body never runs. -/
  | raisedConnectionError
  /-- `__enter__` succeeded, the body ran (raising iff the flag is set),
  and `__exit__` ran; a body exception then propagates since `__exit__`
  returns `None`. -/
  | exited (bodyRaised : Bool)
deriving DecidableEq, Repr

/-- The `with connector:` statement over `__enter__`/`__exit__`.
`__enter__` calls `initialize_terminal`; on `False` it raises
`ConnectionError`, in which case Python never calls `__exit__`.  Otherwise
the body runs (its effects abstracted as `bodyEvents`, raising iff
`bodyRaises`), and `__exit__` then calls `shutdown_terminal` on every exit
path from the body. -/
def withScope (c : MT5Connector) (mt5 : MT5Client) (bodyRaises : Bool)
    (bodyEvents : List Event) : ScopeOutcome × MT5Connector × List Event :=
  let r := initialize_terminal c mt5
  if r.2.1 then
    let s := shutdown_terminal r.1
    (.exited bodyRaises, s.1, r.2.2 ++ bodyEvents ++ s.2)
  else
    (.raisedConnectionError, r.1, r.2.2)

/-- Is this event a `mt5.shutdown()` call? -/
def isShutdown : Event → Bool
  | .shutdownCall => true
  | _ => false

/-- Is this event a `mt5.login(...)` call? -/
def isLoginCall : Event → Bool
  | .loginCall _ _ _ => true
  | _ => false

/-- Is this event a `mt5.initialize(...)` call? -/
def isInitCall : Event → Bool
  | .initCall _ => true
  | _ => false

/-- Number of `mt5.shutdown()` calls in a trace. -/
def countShutdown (tr : List Event) : Nat := (tr.filter isShutdown).length

/-- Number of `mt5.login(...)` calls in a trace. -/
def countLogin (tr : List Event) : Nat := (tr.filter isLoginCall).length

/-- Number of `mt5.initialize(...)` calls in a trace. -/
def countInit (tr : List Event) : Nat := (tr.filter isInitCall).length

/-- A client whose `initialize` always fails, used at concrete inputs. -/
def failClient : MT5Client :=
  { initOk := fun _ => false, loginOk := fun _ _ _ => false, lastError := 1 }

/-- A client whose calls always succeed, used at concrete inputs. -/
def okClient : MT5Client :=
  { initOk := fun _ => true, loginOk := fun _ _ _ => true, lastError := 0 }

/-- A concrete connector built from a missing config file. -/
def cNoFile : MT5Connector := (mkConnector "config.ini" false [] "MT5").1

/-- A concrete config whose account section "A" has a non-numeric login
value and no password or server key. -/
def cfgBadLogin : Config := [("MT5", []), ("A", [("login", "abc")])]

/-- Connector loaded from `cfgBadLogin`. -/
def cBadLogin : MT5Connector := (mkConnector "config.ini" true cfgBadLogin "MT5").1

/-- A concrete config whose account section "B" has a numeric login but no
password key. -/
def cfgMissingKey : Config := [("MT5", []), ("B", [("login", "5")])]

/-- Connector loaded from `cfgMissingKey`. -/
def cMissingKey : MT5Connector :=
  (mkConnector "config.ini" true cfgMissingKey "MT5").1

/-- The round-trip config of the spec: terminal path is the empty string and
section ACCOUNT holds login=123, password=p, server=s. -/
def cfgRound : Config :=
  [("MT5", [("path", "")]),
   ("ACCOUNT", [("login", "123"), ("password", "p"), ("server", "s")])]

/-- Connector loaded from `cfgRound`. -/
def cRound : MT5Connector := (mkConnector "config.ini" true cfgRound "MT5").1

/-! ## Helper lemmas -/

/-- State preservation of `initialize_terminal` (the method assigns no
attribute). -/
theorem initialize_terminal_state (c : MT5Connector) (mt5 : MT5Client) :
    (initialize_terminal c mt5).1 = c := by
  unfold initialize_terminal
  split <;> rfl

/-- State preservation of `login_to_account` (the method assigns no
attribute). -/
theorem login_to_account_state (c : MT5Connector) (mt5 : MT5Client)
    (s : String) : (login_to_account c mt5 s).1 = c := by
  unfold login_to_account
  repeat' split
  all_goals rfl

/-- State preservation of the whole `with` block. -/
theorem withScope_state (c : MT5Connector) (mt5 : MT5Client)
    (bodyRaises : Bool) (bodyEvents : List Event) :
    (withScope c mt5 bodyRaises bodyEvents).2.1 = c := by
  cases h : mt5.initOk c.path <;>
    simp [withScope, initialize_terminal, h, shutdown_terminal]

/-- A `mt5.login(...)` call appears in the trace of `login_to_account`
exactly when the current configuration store holds the account section with
all three keys, the login value parses to the called login id, and the
password and server called are the stored ones — the credentials of the
call are re-read from the store, never cached elsewhere. -/
theorem mem_loginCall_iff (c : MT5Connector) (mt5 : MT5Client) (s : String)
    (l : Int) (pw sv : String) :
    Event.loginCall l pw sv ∈ (login_to_account c mt5 s).2.2 ↔
    ∃ creds ls, getSection c.config s = some creds ∧
      getKey creds "login" = some ls ∧ parseIntPy ls = some l ∧
      getKey creds "password" = some pw ∧ getKey creds "server" = some sv := by
  unfold login_to_account
  cases h1 : getSection c.config s with
  | none => simp [h1]
  | some creds =>
    cases h2 : getKey creds "login" with
    | none => simp [h2]
    | some ls =>
      cases h3 : parseIntPy ls with
      | none => simp [h2, h3]
      | some l0 =>
        cases h4 : getKey creds "password" with
        | none => simp [h2, h3, h4]
        | some pw0 =>
          cases h5 : getKey creds "server" with
          | none => simp [h2, h3, h4, h5]
          | some sv0 =>
            cases hb : mt5.loginOk l0 pw0 sv0 <;>
              simp [h2, h3, h4, h5, hb] <;> aesop

/-! ## Theorems -/

/-- C1 (counterexample to the claim as stated): with `initialize` failing,
entering the scope does raise `ConnectionError`, but `shutdown_terminal`
is NOT invoked — the trace of the failed scope entry contains no
`mt5.shutdown()` call, contradicting "shutdown_terminal() is still invoked
on exit of the failed scope entry". -/
theorem scope_entry_failure_no_shutdown_cex :
    (withScope cNoFile failClient false []).1 = ScopeOutcome.raisedConnectionError ∧
    ¬ (0 < countShutdown (withScope cNoFile failClient false []).2.2) := by
  decide

/-- C1 (amended): for every configuration under which `initialize_terminal`
returns `False`, entering the scoped-acquisition context raises
`ConnectionError`, and — per Python `with`-statement semantics, under which
`__exit__` is not called when `__enter__` raises — `shutdown_terminal` is
not invoked at all; no connection was established, so none is leaked. -/
theorem scope_entry_failure_raises (c : MT5Connector) (mt5 : MT5Client)
    (bodyRaises : Bool) (bodyEvents : List Event)
    (h : mt5.initOk c.path = false) :
    (withScope c mt5 bodyRaises bodyEvents).1 = ScopeOutcome.raisedConnectionError ∧
    countShutdown (withScope c mt5 bodyRaises bodyEvents).2.2 = 0 := by
  simp [withScope, initialize_terminal, h, countShutdown, isShutdown]

/-- C1 witness: the amended theorem applied at a concrete failing client. -/
theorem scope_entry_failure_raises_witness :
    failClient.initOk cNoFile.path = false ∧
    ((withScope cNoFile failClient false []).1 = ScopeOutcome.raisedConnectionError ∧
     countShutdown (withScope cNoFile failClient false []).2.2 = 0) :=
  ⟨rfl, scope_entry_failure_raises cNoFile failClient false [] rfl⟩

/-- C4: after a successful scope entry (`initialize_terminal` returned
`True`), the scope exits with the body's own outcome and `shutdown_terminal`
is invoked exactly once by `__exit__` — the trace holds exactly one more
`mt5.shutdown()` call than the body itself emitted — on every exit path,
whether the body returned normally or raised. -/
theorem scope_exit_shutdown_once (c : MT5Connector) (mt5 : MT5Client)
    (bodyRaises : Bool) (bodyEvents : List Event)
    (h : mt5.initOk c.path = true) :
    (withScope c mt5 bodyRaises bodyEvents).1 = ScopeOutcome.exited bodyRaises ∧
    countShutdown (withScope c mt5 bodyRaises bodyEvents).2.2 =
      countShutdown bodyEvents + 1 := by
  simp [withScope, initialize_terminal, h, shutdown_terminal, countShutdown,
        isShutdown, List.filter_append]

/-- C4 witness: instantiated at a client that initializes successfully and a
body that raises, with one nested shutdown of its own. -/
theorem scope_exit_shutdown_once_witness :
    okClient.initOk cNoFile.path = true ∧
    ((withScope cNoFile okClient true [Event.shutdownCall]).1 =
       ScopeOutcome.exited true ∧
     countShutdown (withScope cNoFile okClient true [Event.shutdownCall]).2.2 =
       countShutdown [Event.shutdownCall] + 1) :=
  ⟨rfl, scope_exit_shutdown_once cNoFile okClient true [Event.shutdownCall] rfl⟩

/-- C5: whenever the config file does not exist, or it exists but lacks the
named terminal section, construction leaves the terminal path unset
(`none`), emits exactly the corresponding diagnostic, and (being a total
function into a plain pair) raises no exception. -/
theorem construction_missing_config (config_path terminal_section : String)
    (fileExists : Bool) (fileConfig : Config)
    (h : fileExists = false ∨ hasSection fileConfig terminal_section = false) :
    (mkConnector config_path fileExists fileConfig terminal_section).1.path = none ∧
    ((fileExists = false ∧
      (mkConnector config_path fileExists fileConfig terminal_section).2 =
        [Event.printMsg (fileNotFoundMsg config_path)]) ∨
     (hasSection fileConfig terminal_section = false ∧
      (mkConnector config_path fileExists fileConfig terminal_section).2 =
        [Event.printMsg (sectionNotFoundMsg terminal_section)])) := by
  rcases h with h | h
  · subst h
    exact ⟨rfl, Or.inl ⟨rfl, rfl⟩⟩
  · cases hex : fileExists
    · exact ⟨rfl, Or.inl ⟨rfl, rfl⟩⟩
    · refine ⟨?_, Or.inr ⟨h, ?_⟩⟩ <;> simp [mkConnector, h]

/-- C5 witness: a file that exists but has no "MT5" section. -/
theorem construction_missing_config_witness :
    (true = false ∨ hasSection [("OTHER", [])] "MT5" = false) ∧
    ((mkConnector "c.ini" true [("OTHER", [])] "MT5").1.path = none ∧
     ((true = false ∧
       (mkConnector "c.ini" true [("OTHER", [])] "MT5").2 =
         [Event.printMsg (fileNotFoundMsg "c.ini")]) ∨
      (hasSection [("OTHER", [])] "MT5" = false ∧
       (mkConnector "c.ini" true [("OTHER", [])] "MT5").2 =
         [Event.printMsg (sectionNotFoundMsg "MT5")]))) :=
  ⟨Or.inr (by decide),
   construction_missing_config "c.ini" "MT5" true [("OTHER", [])]
     (Or.inr (by decide))⟩

/-- C7: `initialize_terminal` returns exactly the boolean the external
client's `initialize` reports, calls the external `initialize` exactly once
per invocation (no automatic retry), and on failure prints the diagnostic
carrying the client's last error code. -/
theorem initialize_terminal_contract (c : MT5Connector) (mt5 : MT5Client) :
    (initialize_terminal c mt5).2.1 = mt5.initOk c.path ∧
    countInit (initialize_terminal c mt5).2.2 = 1 ∧
    (mt5.initOk c.path = false →
      Event.printMsg (initFailedMsg mt5) ∈ (initialize_terminal c mt5).2.2) := by
  cases h : mt5.initOk c.path <;>
    simp [initialize_terminal, h, countInit, isInitCall]

/-- C7 witness: the contract applied at a concrete failing client; the
failure diagnostic is present in the trace. -/
theorem initialize_terminal_contract_witness :
    (initialize_terminal cNoFile failClient).2.1 = failClient.initOk cNoFile.path ∧
    countInit (initialize_terminal cNoFile failClient).2.2 = 1 ∧
    (failClient.initOk cNoFile.path = false →
      Event.printMsg (initFailedMsg failClient) ∈
        (initialize_terminal cNoFile failClient).2.2) :=
  initialize_terminal_contract cNoFile failClient

/-- C9: `shutdown_terminal` behaves identically in every wrapper state —
including states in which `initialize_terminal` was never called or never
succeeded: it unconditionally performs exactly one external `mt5.shutdown()`
call, prints its message, returns normally (it is a total function), and
leaves the wrapper state unchanged. -/
theorem shutdown_terminal_unconditional (c : MT5Connector) :
    (shutdown_terminal c).1 = c ∧
    countShutdown (shutdown_terminal c).2 = 1 ∧
    (shutdown_terminal c).2 =
      [Event.shutdownCall,
       Event.printMsg "Connection to MetaTrader 5 terminal has been shut down."] := by
  exact ⟨rfl, rfl, rfl⟩

/-- C10: when the config file does not exist at construction time, the
configuration store remains empty, so `login_to_account` on any section
name returns `False`, prints the section-not-found diagnostic, and never
calls the external `mt5.login`. -/
theorem missing_file_login_always_fails (config_path terminal_section : String)
    (fileConfig : Config) (mt5 : MT5Client) (account_section : String) :
    (mkConnector config_path false fileConfig terminal_section).1.config = [] ∧
    (login_to_account (mkConnector config_path false fileConfig terminal_section).1
        mt5 account_section).2.1 = false ∧
    countLogin (login_to_account
        (mkConnector config_path false fileConfig terminal_section).1
        mt5 account_section).2.2 = 0 ∧
    Event.printMsg (accountSectionMsg account_section) ∈
      (login_to_account (mkConnector config_path false fileConfig terminal_section).1
        mt5 account_section).2.2 := by
  refine ⟨rfl, ?_, ?_, ?_⟩ <;>
    simp [mkConnector, login_to_account, getSection, countLogin, isLoginCall]

/-- C2 (counterexample to the claim as stated): section "A" is present but
missing both the password and the server key; `login_to_account` returns
`False` and never calls `mt5.login`, but — because the login value "abc" is
non-numeric, so `int()` raises before the missing keys are ever read — the
only diagnostic is the value-conversion message, which names neither the
section nor any missing key. -/
theorem login_missing_key_diagnostic_cex :
    (getKey [("login", "abc")] "password" = none ∧
     getKey [("login", "abc")] "server" = none) ∧
    (login_to_account cBadLogin okClient "A").2.1 = false ∧
    countLogin (login_to_account cBadLogin okClient "A").2.2 = 0 ∧
    (login_to_account cBadLogin okClient "A").2.2 =
      [Event.printMsg (badLoginValueMsg "abc")] ∧
    Event.printMsg (missingKeyMsg "password" "A") ∉
      (login_to_account cBadLogin okClient "A").2.2 ∧
    Event.printMsg (missingKeyMsg "server" "A") ∉
      (login_to_account cBadLogin okClient "A").2.2 ∧
    Event.printMsg (accountSectionMsg "A") ∉
      (login_to_account cBadLogin okClient "A").2.2 := by
  decide

/-- C2 (amended): for every account section that is missing, or present but
missing any of login, password, server, `login_to_account` returns `False`
and never calls `mt5.login`; the single diagnostic emitted is determined by
the first failure in source order: the section-not-found message exactly
when the section is missing; otherwise the missing-key message for "login"
exactly when the login key is missing; otherwise the value-conversion
message exactly when the login value is present but non-numeric (instead of
naming a later missing key); otherwise the missing-key message for
"password", then for "server", for whichever is the first key missing. -/
theorem login_missing_section_or_key (c : MT5Connector) (mt5 : MT5Client)
    (s : String)
    (h : getSection c.config s = none ∨
         ∃ creds, getSection c.config s = some creds ∧
           (getKey creds "login" = none ∨ getKey creds "password" = none ∨
            getKey creds "server" = none)) :
    (login_to_account c mt5 s).2.1 = false ∧
    countLogin (login_to_account c mt5 s).2.2 = 0 ∧
    ((getSection c.config s = none ∧
      (login_to_account c mt5 s).2.2 =
        [Event.printMsg (accountSectionMsg s)]) ∨
     (∃ creds, getSection c.config s = some creds ∧
        getKey creds "login" = none ∧
        (login_to_account c mt5 s).2.2 =
          [Event.printMsg (missingKeyMsg "login" s)]) ∨
     (∃ creds ls, getSection c.config s = some creds ∧
        getKey creds "login" = some ls ∧ parseIntPy ls = none ∧
        (login_to_account c mt5 s).2.2 =
          [Event.printMsg (badLoginValueMsg ls)]) ∨
     (∃ creds ls l, getSection c.config s = some creds ∧
        getKey creds "login" = some ls ∧ parseIntPy ls = some l ∧
        getKey creds "password" = none ∧
        (login_to_account c mt5 s).2.2 =
          [Event.printMsg (missingKeyMsg "password" s)]) ∨
     (∃ creds ls l pw, getSection c.config s = some creds ∧
        getKey creds "login" = some ls ∧ parseIntPy ls = some l ∧
        getKey creds "password" = some pw ∧ getKey creds "server" = none ∧
        (login_to_account c mt5 s).2.2 =
          [Event.printMsg (missingKeyMsg "server" s)])) := by
  rcases h with h1 | ⟨creds, h1, hk⟩
  · refine ⟨?_, ?_, Or.inl ⟨h1, ?_⟩⟩ <;>
      simp [login_to_account, h1, countLogin, isLoginCall]
  · cases h2 : getKey creds "login" with
    | none =>
        refine ⟨?_, ?_, Or.inr (Or.inl ⟨creds, h1, h2, ?_⟩)⟩ <;>
          simp [login_to_account, h1, h2, countLogin, isLoginCall]
    | some ls =>
      cases h3 : parseIntPy ls with
      | none =>
          refine ⟨?_, ?_,
            Or.inr (Or.inr (Or.inl ⟨creds, ls, h1, h2, h3, ?_⟩))⟩ <;>
            simp [login_to_account, h1, h2, h3, countLogin, isLoginCall]
      | some l =>
        cases h4 : getKey creds "password" with
        | none =>
            refine ⟨?_, ?_, Or.inr (Or.inr (Or.inr (Or.inl
              ⟨creds, ls, l, h1, h2, h3, h4, ?_⟩)))⟩ <;>
              simp [login_to_account, h1, h2, h3, h4, countLogin, isLoginCall]
        | some pw =>
          cases h5 : getKey creds "server" with
          | none =>
              refine ⟨?_, ?_, Or.inr (Or.inr (Or.inr (Or.inr
                ⟨creds, ls, l, pw, h1, h2, h3, h4, h5, ?_⟩)))⟩ <;>
                simp [login_to_account, h1, h2, h3, h4, h5, countLogin,
                      isLoginCall]
          | some sv => simp [h2, h4, h5] at hk

/-- C2 witness: the amended theorem applied at a section missing its
password key (with a numeric login, so the missing password is the first
failure in source order and is the key reported). -/
theorem login_missing_section_or_key_witness :
    (getSection cMissingKey.config "B" = none ∨
     ∃ creds, getSection cMissingKey.config "B" = some creds ∧
       (getKey creds "login" = none ∨ getKey creds "password" = none ∨
        getKey creds "server" = none)) ∧
    ((login_to_account cMissingKey okClient "B").2.1 = false ∧
     countLogin (login_to_account cMissingKey okClient "B").2.2 = 0 ∧
     ((getSection cMissingKey.config "B" = none ∧
       (login_to_account cMissingKey okClient "B").2.2 =
         [Event.printMsg (accountSectionMsg "B")]) ∨
      (∃ creds, getSection cMissingKey.config "B" = some creds ∧
         getKey creds "login" = none ∧
         (login_to_account cMissingKey okClient "B").2.2 =
           [Event.printMsg (missingKeyMsg "login" "B")]) ∨
      (∃ creds ls, getSection cMissingKey.config "B" = some creds ∧
         getKey creds "login" = some ls ∧ parseIntPy ls = none ∧
         (login_to_account cMissingKey okClient "B").2.2 =
           [Event.printMsg (badLoginValueMsg ls)]) ∨
      (∃ creds ls l, getSection cMissingKey.config "B" = some creds ∧
         getKey creds "login" = some ls ∧ parseIntPy ls = some l ∧
         getKey creds "password" = none ∧
         (login_to_account cMissingKey okClient "B").2.2 =
           [Event.printMsg (missingKeyMsg "password" "B")]) ∨
      (∃ creds ls l pw, getSection cMissingKey.config "B" = some creds ∧
         getKey creds "login" = some ls ∧ parseIntPy ls = some l ∧
         getKey creds "password" = some pw ∧ getKey creds "server" = none ∧
         (login_to_account cMissingKey okClient "B").2.2 =
           [Event.printMsg (missingKeyMsg "server" "B")]))) :=
  ⟨Or.inr ⟨[("login", "5")], by decide, Or.inr (Or.inl (by decide))⟩,
   login_missing_section_or_key cMissingKey okClient "B"
     (Or.inr ⟨[("login", "5")], by decide, Or.inr (Or.inl (by decide))⟩)⟩

/-- C3: whenever the account section is present but its login value is not
integer-parsable, `login_to_account` reports the value-conversion failure
(via the generic exception handler) and returns `False` without ever
calling `mt5.login`. -/
theorem login_nonnumeric_value (c : MT5Connector) (mt5 : MT5Client)
    (s : String) (creds : List (String × String)) (ls : String)
    (h1 : getSection c.config s = some creds)
    (h2 : getKey creds "login" = some ls)
    (h3 : parseIntPy ls = none) :
    (login_to_account c mt5 s).2.1 = false ∧
    countLogin (login_to_account c mt5 s).2.2 = 0 ∧
    Event.printMsg (badLoginValueMsg ls) ∈ (login_to_account c mt5 s).2.2 := by
  refine ⟨?_, ?_, ?_⟩ <;>
    simp [login_to_account, h1, h2, h3, countLogin, isLoginCall]

/-- C3 witness: applied at the concrete section whose login value is
"abc". -/
theorem login_nonnumeric_value_witness :
    (getSection cBadLogin.config "A" = some [("login", "abc")] ∧
     getKey [("login", "abc")] "login" = some "abc" ∧
     parseIntPy "abc" = none) ∧
    ((login_to_account cBadLogin okClient "A").2.1 = false ∧
     countLogin (login_to_account cBadLogin okClient "A").2.2 = 0 ∧
     Event.printMsg (badLoginValueMsg "abc") ∈
       (login_to_account cBadLogin okClient "A").2.2) :=
  ⟨⟨by decide, by decide, by decide⟩,
   login_nonnumeric_value cBadLogin okClient "A" [("login", "abc")] "abc"
     (by decide) (by decide) (by decide)⟩

/-- C6: loading the round-trip config file — terminal path `""`, section
ACCOUNT with login=123, password=p, server=s — normalizes the empty path
string to unset (`none`), and `login_to_account "ACCOUNT"` calls the
external `mt5.login` with the integer 123, password "p" and server "s",
whatever the client answers. -/
theorem round_trip_config (mt5 : MT5Client) :
    cRound.path = none ∧
    Event.loginCall 123 "p" "s" ∈ (login_to_account cRound mt5 "ACCOUNT").2.2 := by
  refine ⟨by decide, ?_⟩
  exact (mem_loginCall_iff cRound mt5 "ACCOUNT" 123 "p" "s").2
    ⟨[("login", "123"), ("password", "p"), ("server", "s")], "123",
     by decide, by decide, by decide, by decide, by decide⟩

/-- C8: the configuration store and the stored terminal path are read-only
after load — `initialize_terminal`, `login_to_account`, `shutdown_terminal`
and the whole scoped block leave the wrapper state unchanged — and the
credentials of any `mt5.login` call are exactly what the store currently
holds for the requested section, re-read on every login attempt rather
than cached in wrapper state. -/
theorem config_read_only (c : MT5Connector) (mt5 : MT5Client) (s : String)
    (bodyRaises : Bool) (bodyEvents : List Event) :
    (initialize_terminal c mt5).1 = c ∧
    (login_to_account c mt5 s).1 = c ∧
    (shutdown_terminal c).1 = c ∧
    (withScope c mt5 bodyRaises bodyEvents).2.1 = c ∧
    (∀ l pw sv, Event.loginCall l pw sv ∈ (login_to_account c mt5 s).2.2 →
      ∃ creds ls, getSection c.config s = some creds ∧
        getKey creds "login" = some ls ∧ parseIntPy ls = some l ∧
        getKey creds "password" = some pw ∧ getKey creds "server" = some sv) :=
  ⟨initialize_terminal_state c mt5, login_to_account_state c mt5 s, rfl,
   withScope_state c mt5 bodyRaises bodyEvents,
   fun l pw sv hmem => (mem_loginCall_iff c mt5 s l pw sv).1 hmem⟩

/-- C8 witness: the theorem applied at the round-trip connector; the
concrete `mt5.login` call observed in the trace is traced back to the
current store contents. -/
theorem config_read_only_witness :
    Event.loginCall 123 "p" "s" ∈
      (login_to_account cRound okClient "ACCOUNT").2.2 ∧
    ∃ creds ls, getSection cRound.config "ACCOUNT" = some creds ∧
      getKey creds "login" = some ls ∧ parseIntPy ls = some 123 ∧
      getKey creds "password" = some "p" ∧ getKey creds "server" = some "s" :=
  ⟨by decide,
   (config_read_only cRound okClient "ACCOUNT" false []).2.2.2.2
     123 "p" "s" (by decide)⟩

end MT5
